import Mathlib

/-!
Verification of the identity-resolution backend (`app/backends.py`) of the
Learning-Student-Management-System repository: the `MultiModelBackend` class
with its `authenticate`, `get_user`, `get_group_permissions`,
`get_all_permissions` and `has_perm` methods, together with the module-level
tables `_USER_MODEL_MAP` and `_GET_USER_ORDER`.

The four identity tables (Django `User` for administrators, `Staff`, `Parent`,
`Student`) are embedded as lists of records; Django ORM calls are embedded by
their semantics on those lists (`objects.get` raising on zero or several
matches, `filter(...).first()` returning the first match). Each operation
additionally returns the number of store accesses it performed, mirroring the
call-count instrumentation the specification's testable properties ask for.
-/

namespace Backends

/-- The four identity kinds handled by the backend. -/
inductive Kind where
  | admin   -- django.contrib.auth.models.User
  | staff   -- app.models.Staff
  | parent  -- app.models.Parent
  | student -- app.models.Student
deriving DecidableEq, Repr

/-- One identity record. Django's `User` model has no phone field; the code
never consults `phone` on the admin store, so a uniform record type with an
optional phone is a faithful embedding for all four tables. `password` stands
for the stored credential: `check_password(p)` is embedded as `password = p`. -/
structure Rec where
  id : Int
  email : Option String
  phone : Option String
  password : String
deriving DecidableEq, Repr

/-- The four identity stores (tables). Primary keys are unique within each
table (database invariant); emails and phones may repeat. -/
structure DB where
  users : List Rec
  staff : List Rec
  parents : List Rec
  students : List Rec
deriving Repr

/-- A resolved principal: which table the record came from, plus the record. -/
def Principal := Kind × Rec
deriving instance DecidableEq, Repr for Principal

/-- The table backing a kind. -/
def DB.store (db : DB) : Kind → List Rec
  | .admin => db.users
  | .staff => db.staff
  | .parent => db.parents
  | .student => db.students

/-- `Model.objects.get(email=v)`: zero matches raises `DoesNotExist`
(embedded as `ok none`, since the code catches it), one match returns the
record, several matches raise `MultipleObjectsReturned`, which the code does
not catch (embedded as `error ()`). -/
def getByEmail (rs : List Rec) (v : String) : Except Unit (Option Rec) :=
  match rs.filter (fun r => r.email = some v) with
  | [] => .ok none
  | [r] => .ok (some r)
  | _ => .error ()

/-- `Model.objects.filter(field=v).first()`. -/
def filterFirst (rs : List Rec) (field : Rec → Option String) (v : String) :
    Option Rec :=
  rs.find? (fun r => field r = some v)

/-- `Model.objects.get(pk=i)` under the primary-key uniqueness invariant:
the record with that id, if any. -/
def getByPk (rs : List Rec) (i : Int) : Option Rec :=
  rs.find? (fun r => r.id = i)

/-- One `filter(field=username).first()` / `check_password` probe of
`authenticate`: the record found by the lookup if its password also checks,
otherwise nothing (both a failed lookup and a failed password check fall
through to the next probe in the code). -/
def probe (rs : List Rec) (field : Rec → Option String) (u pw : String)
    (k : Kind) : Option Principal :=
  match filterFirst rs field u with
  | some r => if r.password = pw then some (k, r) else none
  | none => none

/-- `MultiModelBackend.authenticate(request, username, password)`.
Returns the outcome (`error ()` for an uncaught `MultipleObjectsReturned`,
otherwise the principal or `none`) paired with the number of identity-store
lookups performed. -/
def authenticate (db : DB) (username password : Option String) :
    Except Unit (Option Principal) × Nat :=
  match username, password with
  | some u, some pw =>
    -- try: user = User.objects.get(email=username) ... except User.DoesNotExist
    match getByEmail db.users u with
    | .error _ => (.error (), 1)
    | .ok found =>
      match found.bind (fun r =>
          if r.password = pw then some ((Kind.admin, r) : Principal) else none) with
      | some p => (.ok (some p), 1)
      | none =>
        -- staff = Staff.objects.filter(phone=username).first()
        match probe db.staff Rec.phone u pw .staff with
        | some p => (.ok (some p), 2)
        | none =>
          -- staff = Staff.objects.filter(email=username).first()
          match probe db.staff Rec.email u pw .staff with
          | some p => (.ok (some p), 3)
          | none =>
            -- parent = Parent.objects.filter(phone=username).first()
            match probe db.parents Rec.phone u pw .parent with
            | some p => (.ok (some p), 4)
            | none =>
              -- student = Student.objects.filter(phone=username).first()
              match probe db.students Rec.phone u pw .student with
              | some p => (.ok (some p), 5)
              | none =>
                -- student = Student.objects.filter(email=username).first()
                match probe db.students Rec.email u pw .student with
                | some p => (.ok (some p), 6)
                | none => (.ok none, 6)
  | _, _ => (.ok none, 0)

/-- The six (store, field, kind) probes of `authenticate`, in source order,
as functions of the database — used to state the probe-order theorem. -/
def probeList (db : DB) (u pw : String) : List (Option Principal) :=
  [ (getByEmail db.users u).toOption.bind (fun found => found.bind (fun r =>
      if r.password = pw then some ((Kind.admin, r) : Principal) else none))
  , probe db.staff Rec.phone u pw .staff
  , probe db.staff Rec.email u pw .staff
  , probe db.parents Rec.phone u pw .parent
  , probe db.students Rec.phone u pw .student
  , probe db.students Rec.email u pw .student ]

/-- `_USER_MODEL_MAP`: session model label → model class. -/
def _USER_MODEL_MAP : List (String × Kind) :=
  [("student", .student), ("staff", .staff), ("parent", .parent), ("user", .admin)]

/-- `_GET_USER_ORDER`: fallback order when `_auth_user_model` is not in the
session. -/
def _GET_USER_ORDER : List Kind := [.student, .parent, .staff, .admin]

/-- The raw argument of `get_user`: Python `None`, an integer, or a string
(which `int(...)` may or may not parse). -/
inductive Raw where
  | null
  | int (n : Int)
  | str (s : String)
deriving DecidableEq, Repr

/-- Decimal digit accumulation: the value of a non-empty all-digit suffix,
`none` as soon as a non-digit appears. -/
def natFromDigits (cs : List Char) (acc : Nat) : Option Nat :=
  match cs with
  | [] => some acc
  | c :: rest =>
    if c.isDigit then natFromDigits rest (acc * 10 + (c.toNat - 48)) else none

/-- Python `int(s)` on a string: an optional sign followed by one or more
decimal digits (Python's additional tolerance for surrounding whitespace and
underscores is immaterial to the claims and not modelled). -/
def pyInt (s : String) : Option Int :=
  match s.toList with
  | [] => none
  | '-' :: rest =>
    match rest with
    | [] => none
    | _ => (natFromDigits rest 0).map (fun n => -(n : Int))
  | '+' :: rest =>
    match rest with
    | [] => none
    | _ => (natFromDigits rest 0).map (fun n => (n : Int))
  | cs => (natFromDigits cs 0).map (fun n => (n : Int))

/-- The `if user_id is None` / `int(user_id)` prelude of `get_user`:
the parsed integer, or `none` when the input is `None` or unparseable. -/
def parseId : Raw → Option Int
  | .null => none
  | .int n => some n
  | .str s => pyInt s

/-- The request session, as seen through `request.session.get("_auth_user_model")`. -/
structure Session where
  auth_user_model : Option String
deriving Repr

/-- The ambient request returned by `get_current_request()`; `session = none`
embeds a request object without a `session` attribute (`hasattr` false). -/
structure Request where
  session : Option Session
deriving Repr

/-- The `for model in _GET_USER_ORDER` loop of `get_user`: try each kind's
store by pk, returning the first hit, counting one store access per attempt. -/
def fallbackSearch (db : DB) (i : Int) : List Kind → Option Principal × Nat
  | [] => (none, 0)
  | k :: ks =>
    match getByPk (db.store k) i with
    | some r => (some (k, r), 1)
    | none =>
      match fallbackSearch db i ks with
      | (res, n) => (res, n + 1)

/-- `MultiModelBackend.get_user(user_id)`, with the ambient request passed
explicitly. Returns the resolved principal (or `none`) paired with the number
of store accesses performed. -/
def get_user (db : DB) (request : Option Request) (raw : Raw) :
    Option Principal × Nat :=
  match parseId raw with
  | none => (none, 0)
  | some i =>
    let tagged : Option Principal × Nat ⊕ Unit :=
      match request with
      | some req =>
        match req.session with
        | some sess =>
          match sess.auth_user_model with
          | some label =>
            -- if model_label and model_label in _USER_MODEL_MAP:
            if label ≠ "" then
              match _USER_MODEL_MAP.lookup label with
              | some k =>
                -- return model.objects.get(pk=user_id) / except: return None
                Sum.inl (((getByPk (db.store k) i).map (fun r => (k, r))), 1)
              | none => Sum.inr ()
            else Sum.inr ()
          | none => Sum.inr ()
        | none => Sum.inr ()
      | none => Sum.inr ()
    match tagged with
    | Sum.inl out => out
    | Sum.inr () => fallbackSearch db i _GET_USER_ORDER

/-- A group: its granted permissions as `(content_type__app_label, codename)`
pairs, as delivered by `group.permissions.values_list(...)`. -/
structure Group where
  perms : List (String × String)
deriving Repr

/-- `"%s.%s" % (ct, name)`. -/
def permString (p : String × String) : String := p.1 ++ "." ++ p.2

/-- The `user_obj` argument of the permission methods: its kind (for the
`isinstance(user_obj, (Staff, Student))` test), the `is_active` and
`is_anonymous` flags, its groups, the `_group_perm_cache` attribute (`none`
when the attribute has not been set), and the answers the Django superclass
(`ModelBackend`) would give for the non-Staff/Student delegation branches —
an external collaborator the specification treats as opaque. -/
structure UserObj where
  kind : Kind
  is_active : Bool
  is_anonymous : Bool
  groups : List Group
  group_perm_cache : Option (Finset String)
  super_group_perms : Finset String
  super_all_perms : Finset String

/-- `isinstance(user_obj, (Staff, Student))`. -/
def isStaffOrStudent (u : UserObj) : Bool :=
  u.kind = Kind.staff || u.kind = Kind.student

/-- The loop body of `get_group_permissions`: the union over the user's
groups of their permission strings. -/
def computeGroupPerms (u : UserObj) : Finset String :=
  u.groups.foldl (fun perms g => perms ∪ (g.perms.map permString).toFinset) ∅

/-- `MultiModelBackend.get_group_permissions(user_obj, obj)`. Returns the
permission set, the user object after the call (the cache attribute may have
been written), and the number of group-query sequences executed (0 or 1). -/
def get_group_permissions (u : UserObj) (obj : Option Unit) :
    Finset String × UserObj × Nat :=
  if !u.is_active || u.is_anonymous || obj.isSome then (∅, u, 0)
  else if isStaffOrStudent u then
    match u.group_perm_cache with
    | some c => (c, u, 0)
    | none =>
      let perms := computeGroupPerms u
      (perms, { u with group_perm_cache := some perms }, 1)
  else (u.super_group_perms, u, 0)

/-- `MultiModelBackend.get_all_permissions(user_obj, obj)`. -/
def get_all_permissions (u : UserObj) (obj : Option Unit) :
    Finset String × UserObj × Nat :=
  if !u.is_active || u.is_anonymous || obj.isSome then (∅, u, 0)
  else if isStaffOrStudent u then get_group_permissions u obj
  else (u.super_all_perms, u, 0)

/-- `ModelBackend.has_perm` of the Django superclass, to which the override
delegates for non-Staff/Student users:
`user_obj.is_active and perm in self.get_all_permissions(user_obj, obj)` —
`self.get_all_permissions` dispatches dynamically to the override above. -/
def super_has_perm (u : UserObj) (perm : String) (obj : Option Unit) :
    Bool × UserObj × Nat :=
  if !u.is_active then (false, u, 0)
  else
    match get_all_permissions u obj with
    | (s, u2, n) => (perm ∈ s, u2, n)

/-- `MultiModelBackend.has_perm(user_obj, perm, obj)`. -/
def has_perm (u : UserObj) (perm : String) (obj : Option Unit) :
    Bool × UserObj × Nat :=
  if !u.is_active then (false, u, 0)
  else if isStaffOrStudent u then
    match get_all_permissions u obj with
    | (s, u2, n) => (perm ∈ s, u2, n)
  else super_has_perm u perm obj

/-- The Kind Tag a request carries, as `get_user` interprets it: the session
value of `_auth_user_model` when that value is truthy and a key of
`_USER_MODEL_MAP`, and nothing otherwise. -/
def recognizedTag (request : Option Request) : Option Kind :=
  match request with
  | some req =>
    match req.session with
    | some sess =>
      match sess.auth_user_model with
      | some label =>
        if label ≠ "" then _USER_MODEL_MAP.lookup label else none
      | none => none
    | none => none
  | none => none

theorem fallbackSearch_fst (db : DB) (i : Int) (ks : List Kind) :
    (fallbackSearch db i ks).1 =
      ks.findSome? (fun k => (getByPk (db.store k) i).map (fun r => ((k, r) : Principal))) := by
  induction ks with
  | nil => rfl
  | cons k ks ih =>
    simp only [fallbackSearch, List.findSome?_cons]
    cases h : getByPk (db.store k) i with
    | none => simpa [h] using ih
    | some r => simp [h]

theorem get_user_of_no_tag (db : DB) (request : Option Request) (i : Int)
    (h : recognizedTag request = none) :
    get_user db request (Raw.int i) = fallbackSearch db i _GET_USER_ORDER := by
  match request with
  | none => rfl
  | some req =>
    match hs : req.session with
    | none => simp [get_user, parseId, hs]
    | some sess =>
      match hl : sess.auth_user_model with
      | none => simp [get_user, parseId, hs, hl]
      | some label =>
        by_cases hne : label = ""
        · subst hne; simp [get_user, parseId, hs, hl]
        · have hmap : _USER_MODEL_MAP.lookup label = none := by
            simpa [recognizedTag, hs, hl, hne] using h
          simp [get_user, parseId, hs, hl, hne, hmap]

theorem get_user_of_tag (db : DB) (label : String) (k : Kind) (i : Int)
    (hk : _USER_MODEL_MAP.lookup label = some k) (hne : label ≠ "") :
    get_user db (some ⟨some ⟨some label⟩⟩) (Raw.int i) =
      ((getByPk (db.store k) i).map (fun r => ((k, r) : Principal)), 1) := by
  simp [get_user, parseId, hne, hk]

/-- C6: for every input that is `None` or does not parse as an integer,
`get_user` returns no principal and performs no store access. -/
theorem c6_unparseable_id_absent_no_access (db : DB) (request : Option Request)
    (raw : Raw) (h : parseId raw = none) :
    get_user db request raw = (none, 0) := by
  simp [get_user, h]

theorem c6_unparseable_id_absent_no_access_witness :
    (parseId (Raw.str "not-a-number") = none ∧
      get_user ⟨[], [], [], []⟩ none (Raw.str "not-a-number") = (none, 0)) ∧
    (parseId Raw.null = none ∧ get_user ⟨[], [], [], []⟩ none Raw.null = (none, 0)) :=
  ⟨⟨by rfl, c6_unparseable_id_absent_no_access _ none _ (by rfl)⟩,
   ⟨rfl, c6_unparseable_id_absent_no_access _ none _ rfl⟩⟩

/-- C9: the session tag string "user" denotes the Admin kind: under it,
`get_user` consults only the admin (`User`) store — a single store access —
and returns that store's record with the given id, or nothing. -/
theorem c9_tag_user_is_admin (db : DB) (i : Int) :
    get_user db (some ⟨some ⟨some "user"⟩⟩) (Raw.int i) =
      ((getByPk db.users i).map (fun r => ((Kind.admin, r) : Principal)), 1) :=
  get_user_of_tag db "user" Kind.admin i rfl (by simp)

/-- C2: for EVERY recognized Kind Tag (a key of `_USER_MODEL_MAP`, mapping to
kind k) and an id absent from that kind's store, `get_user` returns no
principal after exactly one store access — no fallback to any other kind's
store. -/
theorem c2_tagged_miss_no_fallback (db : DB) (label : String) (k : Kind) (i : Int)
    (hk : _USER_MODEL_MAP.lookup label = some k)
    (h : getByPk (db.store k) i = none) :
    get_user db (some ⟨some ⟨some label⟩⟩) (Raw.int i) = (none, 1) := by
  have hne : label ≠ "" := by
    intro he
    subst he
    cases k <;> exact absurd hk (by decide)
  rw [get_user_of_tag db label k i hk hne, h]
  rfl

theorem c2_tagged_miss_no_fallback_witness :
    _USER_MODEL_MAP.lookup "student" = some Kind.student ∧
    getByPk (DB.store ⟨[], [⟨5, none, some "555", "pw"⟩], [], []⟩ Kind.student) 5 = none ∧
    get_user ⟨[], [⟨5, none, some "555", "pw"⟩], [], []⟩
      (some ⟨some ⟨some "student"⟩⟩) (Raw.int 5) = (none, 1) :=
  ⟨by decide, rfl,
   c2_tagged_miss_no_fallback _ "student" Kind.student 5 (by decide) rfl⟩

/-- C5: with no request, no session, or a missing/unrecognized tag, `get_user`
returns the record of the first kind in the fixed order
Student, Parent, Staff, Admin whose store contains the id. -/
theorem c5_fallback_order (db : DB) (request : Option Request) (i : Int)
    (h : recognizedTag request = none) :
    (get_user db request (Raw.int i)).1 =
      _GET_USER_ORDER.findSome?
        (fun k => (getByPk (db.store k) i).map (fun r => ((k, r) : Principal))) := by
  rw [get_user_of_no_tag db request i h, fallbackSearch_fst]

theorem c5_fallback_order_witness :
    recognizedTag none = none ∧
    (get_user ⟨[⟨1, some "b@x", none, "pw2"⟩], [], [], [⟨1, some "a@x", some "111", "pw"⟩]⟩
        none (Raw.int 1)).1 =
      [Kind.student, Kind.parent, Kind.staff, Kind.admin].findSome?
        (fun k =>
          (getByPk ((DB.store ⟨[⟨1, some "b@x", none, "pw2"⟩], [], [], [⟨1, some "a@x", some "111", "pw"⟩]⟩) k) 1).map
            (fun r => ((k, r) : Principal))) ∧
    (get_user ⟨[⟨1, some "b@x", none, "pw2"⟩], [], [], [⟨1, some "a@x", some "111", "pw"⟩]⟩
        none (Raw.int 1)).1 =
      some ((Kind.student, ⟨1, some "a@x", some "111", "pw"⟩) : Principal) :=
  ⟨rfl, c5_fallback_order _ none 1 rfl, by decide⟩

/-- C1 counterexample: the tag "admin" is NOT recognized by `get_user`.
With a session tagged "admin" and id 1 present in both the admin store and
the student store, the result is the Student record, not the Admin record —
the admin store was not the only store consulted. -/
theorem c1_counterexample :
    _USER_MODEL_MAP.lookup "admin" = none ∧
    (get_user ⟨[⟨1, some "b@x", none, "pw2"⟩], [], [], [⟨1, some "a@x", some "111", "pw"⟩]⟩
        (some ⟨some ⟨some "admin"⟩⟩) (Raw.int 1)).1 =
      some ((Kind.student, ⟨1, some "a@x", some "111", "pw"⟩) : Principal) ∧
    ((Kind.student, (⟨1, some "a@x", some "111", "pw"⟩ : Rec)) : Principal) ≠
      ((Kind.admin, ⟨1, some "b@x", none, "pw2"⟩) : Principal) := by
  refine ⟨rfl, by decide, by decide⟩

/-- C1 amended: the recognized tag values are "student", "staff", "parent"
and "user" — "admin" is not among them. A session tagged "admin" is treated
as unrecognized: `get_user` runs the fixed-order fallback search instead of
consulting only the admin store (the Admin kind's recognized tag is "user"). -/
theorem c1_tag_admin_unrecognized (db : DB) (i : Int) :
    _USER_MODEL_MAP.lookup "admin" = none ∧
    (_USER_MODEL_MAP.map Prod.fst = ["student", "staff", "parent", "user"] ∧
      _USER_MODEL_MAP.lookup "user" = some Kind.admin) ∧
    get_user db (some ⟨some ⟨some "admin"⟩⟩) (Raw.int i) =
      fallbackSearch db i _GET_USER_ORDER :=
  ⟨rfl, ⟨rfl, rfl⟩, get_user_of_no_tag db _ i rfl⟩

theorem authenticate_eq_probes (db : DB) (u pw : String)
    (h : getByEmail db.users u ≠ Except.error ()) :
    (authenticate db (some u) (some pw)).1 =
      Except.ok ((probeList db u pw).findSome? id) := by
  unfold authenticate probeList
  cases hget : getByEmail db.users u with
  | error e => cases e; exact absurd hget h
  | ok found =>
    have hrest : ∀ adminFail : Option Principal, adminFail = none →
        ((match adminFail with
          | some p => (Except.ok (some p), 1)
          | none =>
            match probe db.staff Rec.phone u pw Kind.staff with
            | some p => (Except.ok (some p), 2)
            | none =>
              match probe db.staff Rec.email u pw Kind.staff with
              | some p => (Except.ok (some p), 3)
              | none =>
                match probe db.parents Rec.phone u pw Kind.parent with
                | some p => (Except.ok (some p), 4)
                | none =>
                  match probe db.students Rec.phone u pw Kind.student with
                  | some p => (Except.ok (some p), 5)
                  | none =>
                    match probe db.students Rec.email u pw Kind.student with
                    | some p => (Except.ok (some p), 6)
                    | none => (Except.ok none, 6) : Except Unit (Option Principal) × Nat)).1 =
          (Except.ok (List.findSome? id
            [adminFail,
             probe db.staff Rec.phone u pw Kind.staff,
             probe db.staff Rec.email u pw Kind.staff,
             probe db.parents Rec.phone u pw Kind.parent,
             probe db.students Rec.phone u pw Kind.student,
             probe db.students Rec.email u pw Kind.student]) : Except Unit (Option Principal)) := by
      intro adminFail ha
      subst ha
      simp only [List.findSome?_cons, id_eq]
      cases h2 : probe db.staff Rec.phone u pw Kind.staff with
      | some p => simp
      | none =>
        cases h3 : probe db.staff Rec.email u pw Kind.staff with
        | some p => simp
        | none =>
          cases h4 : probe db.parents Rec.phone u pw Kind.parent with
          | some p => simp
          | none =>
            cases h5 : probe db.students Rec.phone u pw Kind.student with
            | some p => simp
            | none =>
              cases h6 : probe db.students Rec.email u pw Kind.student with
              | some p => simp
              | none => simp
    cases found with
    | some r =>
      by_cases hpw : r.password = pw
      · simp [hget, hpw, Except.toOption]
      · have := hrest ((some r).bind (fun r =>
            if r.password = pw then some ((Kind.admin, r) : Principal) else none))
          (by simp [hpw])
        simpa [hget, Except.toOption, hpw] using this
    | none =>
      have := hrest none rfl
      simpa [hget, Except.toOption] using this

/-- C3: provided the admin-by-email lookup does not raise, `authenticate`
performs the six probes in source order — (admin, email), (staff, phone),
(staff, email), (parent, phone), (student, phone), (student, email) — and
returns the first probe whose record is found and whose password verifies
(a found record with a wrong password falls through to the next probe);
when every probe fails the result is no principal. -/
theorem c3_probe_order (db : DB) (u pw : String)
    (h : getByEmail db.users u ≠ Except.error ()) :
    (authenticate db (some u) (some pw)).1 =
      Except.ok ((probeList db u pw).findSome? id) :=
  authenticate_eq_probes db u pw h

theorem c3_probe_order_witness :
    getByEmail (DB.users ⟨[], [⟨2, none, some "555", "pw"⟩], [⟨3, none, some "555", "pw"⟩], []⟩) "555" ≠
      Except.error () ∧
    (authenticate ⟨[], [⟨2, none, some "555", "pw"⟩], [⟨3, none, some "555", "pw"⟩], []⟩
        (some "555") (some "pw")).1 =
      Except.ok ((probeList ⟨[], [⟨2, none, some "555", "pw"⟩], [⟨3, none, some "555", "pw"⟩], []⟩
        "555" "pw").findSome? id) ∧
    (probeList ⟨[], [⟨2, none, some "555", "pw"⟩], [⟨3, none, some "555", "pw"⟩], []⟩
        "555" "pw").findSome? id =
      some ((Kind.staff, ⟨2, none, some "555", "pw"⟩) : Principal) :=
  ⟨fun hc => Except.noConfusion hc,
   c3_probe_order _ "555" "pw" (fun hc => Except.noConfusion hc), by decide⟩

instance {ε α : Type} [DecidableEq ε] [DecidableEq α] : DecidableEq (Except ε α) :=
  fun a b =>
    match a, b with
    | .error e, .error f =>
      if h : e = f then isTrue (by rw [h]) else isFalse (fun hc => h (Except.error.inj hc))
    | .error _, .ok _ => isFalse (fun hc => Except.noConfusion hc)
    | .ok _, .error _ => isFalse (fun hc => Except.noConfusion hc)
    | .ok x, .ok y =>
      if h : x = y then isTrue (by rw [h]) else isFalse (fun hc => h (Except.ok.inj hc))

/-- C4 counterexample: an EMPTY (but present) identifier and secret do not
short-circuit `authenticate`. With a staff record whose phone is the empty
string and whose password is "s", the call with identifier "" and secret "s"
performs two store lookups and returns that staff principal — neither the
"result is absent" part nor the "no identity-store lookup" part of the claim
holds for empty strings. -/
theorem c4_counterexample :
    authenticate ⟨[], [⟨7, none, some "", "s"⟩], [], []⟩ (some "") (some "s") =
      (Except.ok (some ((Kind.staff, ⟨7, none, some "", "s"⟩) : Principal)), 2) ∧
    ¬((authenticate ⟨[], [⟨7, none, some "", "s"⟩], [], []⟩ (some "") (some "s")).1 =
        Except.ok none ∧
      (authenticate ⟨[], [⟨7, none, some "", "s"⟩], [], []⟩ (some "") (some "s")).2 = 0) := by
  refine ⟨by decide, by decide⟩

/-- C4 amended: only a MISSING (`None`) identifier or secret short-circuits
`authenticate`: in that case the result is no principal and no identity-store
lookup is performed. An empty-string identifier or secret is not treated as
missing and proceeds to the probes. -/
theorem c4_missing_credentials_short_circuit (db : DB)
    (username password : Option String)
    (h : username = none ∨ password = none) :
    authenticate db username password = (Except.ok none, 0) := by
  cases username with
  | none => cases password <;> rfl
  | some u =>
    cases password with
    | none => rfl
    | some pw => rcases h with h | h <;> exact Option.noConfusion h

theorem c4_missing_credentials_short_circuit_witness :
    ((some "x" : Option String) = none ∨ (none : Option String) = none) ∧
    authenticate ⟨[], [⟨7, none, some "", "s"⟩], [], []⟩ (some "x") none =
      (Except.ok none, 0) :=
  ⟨Or.inr rfl, c4_missing_credentials_short_circuit _ (some "x") none (Or.inr rfl)⟩

theorem getByEmail_error_iff (rs : List Rec) (v : String) :
    getByEmail rs v = Except.error () ↔
      2 ≤ (rs.filter (fun r => r.email = some v)).length := by
  unfold getByEmail
  cases hf : rs.filter (fun r => r.email = some v) with
  | nil => simp
  | cons a l => cases l <;> simp

/-- C10: the admin probe is the only place `authenticate` can raise. When at
most one admin (`User`) record matches the given email — in particular
whatever duplicate phones or emails the staff, parent and student stores
contain — the operation never raises; when two or more admin records share
the email (and both credentials are present) it raises instead of returning
a result. -/
theorem c10_only_admin_probe_raises (db : DB) (username password : Option String) :
    ((∀ u, username = some u →
        (db.users.filter (fun r => r.email = some u)).length ≤ 1) →
      (authenticate db username password).1 ≠ Except.error ()) ∧
    (∀ u pw, username = some u → password = some pw →
      2 ≤ (db.users.filter (fun r => r.email = some u)).length →
      (authenticate db username password).1 = Except.error ()) := by
  constructor
  · intro hlen
    cases username with
    | none => cases password <;> exact fun hc => Except.noConfusion hc
    | some u =>
      cases password with
      | none => exact fun hc => Except.noConfusion hc
      | some pw =>
        have h1 := hlen u rfl
        have hne : getByEmail db.users u ≠ Except.error () := by
          rw [Ne, getByEmail_error_iff]
          omega
        rw [authenticate_eq_probes db u pw hne]
        exact fun hc => Except.noConfusion hc
  · intro u pw hu hpw hlen
    subst hu; subst hpw
    have herr : getByEmail db.users u = Except.error () :=
      (getByEmail_error_iff db.users u).mpr hlen
    simp [authenticate, herr]

theorem c10_only_admin_probe_raises_witness :
    ((∀ u, (some "555" : Option String) = some u →
        (List.filter (fun r => r.email = some u)
          (DB.users ⟨[], [⟨2, none, some "555", "pw"⟩], [⟨3, none, some "555", "pw"⟩], []⟩)).length ≤ 1) ∧
      (authenticate ⟨[], [⟨2, none, some "555", "pw"⟩], [⟨3, none, some "555", "pw"⟩], []⟩
          (some "555") (some "pw")).1 ≠ Except.error ()) ∧
    (2 ≤ (List.filter (fun r => r.email = some "d@x")
        (DB.users ⟨[⟨1, some "d@x", none, "p"⟩, ⟨2, some "d@x", none, "q"⟩], [], [], []⟩)).length ∧
      (authenticate ⟨[⟨1, some "d@x", none, "p"⟩, ⟨2, some "d@x", none, "q"⟩], [], [], []⟩
          (some "d@x") (some "p")).1 = Except.error ()) :=
  ⟨⟨fun u hu => by cases hu; decide,
    (c10_only_admin_probe_raises _ (some "555") (some "pw")).1
      (fun u hu => by cases hu; decide)⟩,
   ⟨by decide,
    (c10_only_admin_probe_raises _ (some "d@x") (some "p")).2 "d@x" "p" rfl rfl (by decide)⟩⟩

theorem mem_foldl_union (s : String) (l : List Group) (init : Finset String) :
    s ∈ l.foldl (fun perms g => perms ∪ (g.perms.map permString).toFinset) init ↔
      s ∈ init ∨ ∃ g ∈ l, ∃ p ∈ g.perms, s = permString p := by
  induction l generalizing init with
  | nil => simp
  | cons g l ih =>
    rw [List.foldl_cons, ih]
    simp only [Finset.mem_union, List.mem_toFinset, List.mem_map, List.mem_cons]
    constructor
    · rintro (⟨hs | ⟨p, hp, hps⟩⟩ | ⟨g2, hg2, p, hp, hps⟩)
      · exact Or.inl hs
      · exact Or.inr ⟨g, Or.inl rfl, p, hp, hps.symm⟩
      · exact Or.inr ⟨g2, Or.inr hg2, p, hp, hps⟩
    · rintro (hs | ⟨g2, hg2 | hg2, p, hp, hps⟩)
      · exact Or.inl (Or.inl hs)
      · exact Or.inl (Or.inr ⟨p, by rw [hg2] at hp; exact hp, hps.symm⟩)
      · exact Or.inr ⟨g2, hg2, p, hp, hps⟩

theorem mem_computeGroupPerms (u : UserObj) (s : String) :
    s ∈ computeGroupPerms u ↔ ∃ g ∈ u.groups, ∃ p ∈ g.perms, s = permString p := by
  unfold computeGroupPerms
  rw [mem_foldl_union]
  simp

/-- C7: for an active, non-anonymous Staff or Student principal with no
object argument and an unset cache, `get_group_permissions` returns exactly
the union, over every group of the principal, of that group's
namespace.action permission strings; it runs one group-query sequence, writes
the result into the principal's cache, and a second call on the updated
principal returns the same set with zero further group queries. -/
theorem c7_group_perms_union_and_cache (u : UserObj)
    (hact : u.is_active = true) (hanon : u.is_anonymous = false)
    (hkind : isStaffOrStudent u = true) (hcache : u.group_perm_cache = none) :
    (∀ s, s ∈ (get_group_permissions u none).1 ↔
        ∃ g ∈ u.groups, ∃ p ∈ g.perms, s = permString p) ∧
    (get_group_permissions u none).2.2 = 1 ∧
    (get_group_permissions u none).2.1.group_perm_cache =
      some (get_group_permissions u none).1 ∧
    get_group_permissions (get_group_permissions u none).2.1 none =
      ((get_group_permissions u none).1, (get_group_permissions u none).2.1, 0) := by
  have h1 : get_group_permissions u none =
      (computeGroupPerms u, { u with group_perm_cache := some (computeGroupPerms u) }, 1) := by
    simp [get_group_permissions, hact, hanon, hkind, hcache]
  refine ⟨?_, ?_, ?_, ?_⟩
  · intro s; rw [h1]; exact mem_computeGroupPerms u s
  · rw [h1]
  · rw [h1]
  · rw [h1]
    simp [get_group_permissions, hact, hanon, isStaffOrStudent] at hkind ⊢
    rcases hkind with hk | hk <;> simp [hk]

theorem c7_group_perms_union_and_cache_witness :
    (UserObj.is_active ⟨Kind.student, true, false,
        [⟨[("app", "view_x")]⟩, ⟨[("app", "edit_y")]⟩], none, ∅, ∅⟩ = true ∧
      UserObj.is_anonymous ⟨Kind.student, true, false,
        [⟨[("app", "view_x")]⟩, ⟨[("app", "edit_y")]⟩], none, ∅, ∅⟩ = false ∧
      isStaffOrStudent ⟨Kind.student, true, false,
        [⟨[("app", "view_x")]⟩, ⟨[("app", "edit_y")]⟩], none, ∅, ∅⟩ = true ∧
      UserObj.group_perm_cache ⟨Kind.student, true, false,
        [⟨[("app", "view_x")]⟩, ⟨[("app", "edit_y")]⟩], none, ∅, ∅⟩ = none) ∧
    (get_group_permissions ⟨Kind.student, true, false,
        [⟨[("app", "view_x")]⟩, ⟨[("app", "edit_y")]⟩], none, ∅, ∅⟩ none).2.2 = 1 ∧
    get_group_permissions (get_group_permissions ⟨Kind.student, true, false,
        [⟨[("app", "view_x")]⟩, ⟨[("app", "edit_y")]⟩], none, ∅, ∅⟩ none).2.1 none =
      ((get_group_permissions ⟨Kind.student, true, false,
          [⟨[("app", "view_x")]⟩, ⟨[("app", "edit_y")]⟩], none, ∅, ∅⟩ none).1,
        (get_group_permissions ⟨Kind.student, true, false,
          [⟨[("app", "view_x")]⟩, ⟨[("app", "edit_y")]⟩], none, ∅, ∅⟩ none).2.1, 0) ∧
    (get_group_permissions ⟨Kind.student, true, false,
        [⟨[("app", "view_x")]⟩, ⟨[("app", "edit_y")]⟩], none, ∅, ∅⟩ none).1 =
      {"app.view_x", "app.edit_y"} :=
  ⟨⟨rfl, rfl, rfl, rfl⟩,
   (c7_group_perms_union_and_cache ⟨Kind.student, true, false,
      [⟨[("app", "view_x")]⟩, ⟨[("app", "edit_y")]⟩], none, ∅, ∅⟩
      rfl rfl (by decide) rfl).2.1,
   (c7_group_perms_union_and_cache ⟨Kind.student, true, false,
      [⟨[("app", "view_x")]⟩, ⟨[("app", "edit_y")]⟩], none, ∅, ∅⟩
      rfl rfl (by decide) rfl).2.2.2,
   by decide⟩

/-- C8: when the principal is inactive, or anonymous, or a non-null object
argument is supplied, `get_group_permissions` and `get_all_permissions`
return the empty set and `has_perm` returns false, whatever the principal's
groups grant. -/
theorem c8_inactive_anonymous_object_denied (u : UserObj) (perm : String)
    (obj : Option Unit)
    (h : u.is_active = false ∨ u.is_anonymous = true ∨ obj.isSome = true) :
    (get_group_permissions u obj).1 = ∅ ∧
    (get_all_permissions u obj).1 = ∅ ∧
    (has_perm u perm obj).1 = false := by
  have hguard : (!u.is_active || u.is_anonymous || obj.isSome) = true := by
    rcases h with h | h | h <;> simp [h]
  have hgp : (get_group_permissions u obj).1 = ∅ := by
    simp [get_group_permissions, hguard]
  have hap : get_all_permissions u obj = (∅, u, 0) := by
    simp [get_all_permissions, hguard]
  refine ⟨hgp, by rw [hap], ?_⟩
  cases hact : u.is_active with
  | false => simp [has_perm, super_has_perm, hact]
  | true =>
    by_cases hss : isStaffOrStudent u = true
    · simp [has_perm, hact, hss, hap]
    · simp [has_perm, super_has_perm, hact, hss, hap]

theorem c8_inactive_anonymous_object_denied_witness :
    ((UserObj.is_active ⟨Kind.student, false, false,
        [⟨[("app", "view_x")]⟩], none, ∅, ∅⟩ = false ∨
      UserObj.is_anonymous ⟨Kind.student, false, false,
        [⟨[("app", "view_x")]⟩], none, ∅, ∅⟩ = true ∨
      (Option.isSome (none : Option Unit)) = true) ∧
      (get_group_permissions ⟨Kind.student, false, false,
          [⟨[("app", "view_x")]⟩], none, ∅, ∅⟩ none).1 = ∅ ∧
      (get_all_permissions ⟨Kind.student, false, false,
          [⟨[("app", "view_x")]⟩], none, ∅, ∅⟩ none).1 = ∅ ∧
      (has_perm ⟨Kind.student, false, false,
          [⟨[("app", "view_x")]⟩], none, ∅, ∅⟩ "app.view_x" none).1 = false) ∧
    (has_perm ⟨Kind.student, true, false,
        [⟨[("app", "view_x")]⟩], none, ∅, ∅⟩ "app.view_x" (some ())).1 = false :=
  ⟨⟨Or.inl rfl,
    c8_inactive_anonymous_object_denied _ "app.view_x" none (Or.inl rfl)⟩,
   (c8_inactive_anonymous_object_denied _ "app.view_x" (some ()) (Or.inr (Or.inr rfl))).2.2⟩

end Backends
